import Mathlib

/-!
Shallow embedding of `idaes/apps/grid_integration/tests/util.py`:
the `TestingModel` mock thermal-generator model and the
`TestingForecaster` constant-price forecaster, together with theorems
settling the specification claims about them.

Modelling conventions:
* Python floats are modelled as rationals (`ℚ`); `round(x, 2)` is `round2`.
* Pyomo component lookups that can raise (`b.P_T[t]` for `t` outside the
  index set) are modelled with `Option`.
* Pyomo expressions (`b.prod_cost_approx`, `b.tot_cost`) are modelled as a
  small expression AST evaluated against the block's current variable and
  parameter values, mirroring `pyo.value`.
* Python dicts keep insertion order; rows are association lists with
  dict-update semantics (`dictInsert`).
-/

namespace GridIntegrationTest

/-- A Python value that can appear as a cell of a results row:
a string, an int, a float (modelled as `ℚ`), or `None`. -/
inductive PyVal where
  | str (s : String)
  | int (n : ℤ)
  | num (q : ℚ)
  | none
deriving DecidableEq

/-- Python runtime errors raised by this module. -/
inductive PyError where
  | typeError (msg : String)
deriving DecidableEq

/-- Python's `round(x, 2)`: round to two decimal places. -/
def round2 (q : ℚ) : ℚ := ((round (100 * q) : ℤ) : ℚ) / 100

/-- Modelled from the spec: `ThermalGeneratorModelData`
(imported from `idaes.apps.grid_integration.model_data`, not part of this
excerpt) is a recognized thermal-generator descriptor carrying the generator
name, the capacity bounds `p_min`/`p_max`, and a validated, non-empty
production cost curve `p_cost` of (power, cost) pairs. -/
structure ThermalGeneratorModelData where
  gen_name : String
  p_min : ℚ
  p_max : ℚ
  p_cost : List (ℚ × ℚ)
  p_cost_ne : p_cost ≠ []

/-- A Python object passed as `model_data`: either an instance of
`ThermalGeneratorModelData`, or any other object (not an instance). -/
inductive PyData where
  | thermal (d : ThermalGeneratorModelData)
  | notThermal

/-- A results row: an insertion-ordered Python dict from column names to
cell values. -/
abbrev Row := List (String × PyVal)

/-- A recorded frame: one row per horizon time step (a pandas DataFrame). -/
abbrev Frame := List Row

/-- The `TestingModel` object's own state: the stored model data and the
fields set by `__init__` (`generator`, `result_list`, `pmin`, `pmax`,
`marginal_cost`). -/
structure TestingModel where
  model_data : ThermalGeneratorModelData
  generator : String
  result_list : List Frame
  pmin : ℚ
  pmax : ℚ
  marginal_cost : ℚ

/-- `TestingModel.__init__`: raises `TypeError` unless `model_data` is an
instance of `ThermalGeneratorModelData`; otherwise stores the model data and
sets `generator`, `result_list`, `pmin`, `pmax` and
`marginal_cost = model_data.p_cost[0][1]`. -/
def TestingModel.init : PyData → Except PyError TestingModel
  | PyData.notThermal =>
      Except.error (PyError.typeError
        "model_data must be an instance of ThermalGeneratorModelData.")
  | PyData.thermal d =>
      Except.ok
        { model_data := d
          generator := d.gen_name
          result_list := []
          pmin := d.p_min
          pmax := d.p_max
          marginal_cost := (d.p_cost.head d.p_cost_ne).2 }

/-- A Pyomo expression over the block's components: constants, the power
variable `P_T[t]`, the parameters `marginal_cost` and `pre_P_T`, products
and differences. -/
inductive PyExpr where
  | const (q : ℚ)
  | varPT (t : ℕ)
  | paramMC
  | paramPrePT
  | mul (a b : PyExpr)
  | sub (a b : PyExpr)
deriving DecidableEq

/-- The Pyomo block built by `populate_model`: the `HOUR` index set, the
immutable parameters `marginal_cost`, `Pmax`, `Pmin`, the mutable parameter
`pre_P_T`, the current values and bounds of the variable `P_T` (indexed by
`HOUR`), and the expression components `prod_cost_approx` and `tot_cost`
(indexed by `HOUR`, hence `Option`-valued outside it). -/
structure Block where
  HOUR : List ℕ
  marginal_cost : ℚ
  Pmax : ℚ
  Pmin : ℚ
  pre_P_T : ℚ
  P_T : ℕ → ℚ
  P_T_lb : ℚ
  P_T_ub : ℚ
  prod_cost_approx : ℕ → Option PyExpr
  tot_cost : ℕ → Option PyExpr

/-- Access `b.P_T[t]`: defined only for `t` in the index set `HOUR`
(a `KeyError` in Python otherwise). -/
def Block.PTlookup (b : Block) (t : ℕ) : Option ℚ :=
  if t ∈ b.HOUR then some (b.P_T t) else none

/-- `pyo.value`: evaluate an expression against the block's current
variable values and parameters; fails if it references `P_T` outside the
index set. -/
def evalE (b : Block) : PyExpr → Option ℚ
  | PyExpr.const q => some q
  | PyExpr.varPT t => b.PTlookup t
  | PyExpr.paramMC => some b.marginal_cost
  | PyExpr.paramPrePT => some b.pre_P_T
  | PyExpr.mul a c =>
      match evalE b a, evalE b c with
      | some x, some y => some (x * y)
      | _, _ => Option.none
  | PyExpr.sub a c =>
      match evalE b a, evalE b c with
      | some x, some y => some (x - y)
      | _, _ => Option.none

/-- `TestingModel.populate_model`: builds the block with
`HOUR = range(horizon)`, the parameters `marginal_cost`, `Pmax`, `Pmin`,
the mutable parameter `pre_P_T` initialized to `pmin`, the variable `P_T`
indexed by `HOUR` initialized to `pmin` with bounds `(pmin, pmax)`, and the
expressions `prod_cost_approx[h] = P_T[h] * marginal_cost` and
`tot_cost[h] = prod_cost_approx[h]` for each `h` in `HOUR`. -/
def TestingModel.populate_model (m : TestingModel) (horizon : ℕ) : Block :=
  { HOUR := List.range horizon
    marginal_cost := m.marginal_cost
    Pmax := m.pmax
    Pmin := m.pmin
    pre_P_T := m.pmin
    P_T := fun _ => m.pmin
    P_T_lb := m.pmin
    P_T_ub := m.pmax
    prod_cost_approx := fun h =>
      if h ∈ List.range horizon
      then some (PyExpr.mul (PyExpr.varPT h) PyExpr.paramMC)
      else Option.none
    tot_cost := fun h =>
      if h ∈ List.range horizon
      then some (PyExpr.mul (PyExpr.varPT h) PyExpr.paramMC)
      else Option.none }

/-- An external solve (or other external write) assigning current values to
the variable `P_T` and the mutable parameter `pre_P_T` of a block; all the
structural components are untouched. -/
def setValues (b : Block) (v : ℕ → ℚ) (pre : ℚ) : Block :=
  { b with P_T := v, pre_P_T := pre }

/-- `TestingModel._update_power`: sets the block's mutable parameter
`pre_P_T` to `round(implemented_power_output[-1], 2)`; an empty list is an
`IndexError` in Python, modelled as `Option.none`. -/
def TestingModel.update_power (b : Block) (implemented_power_output : List ℚ) :
    Option Block :=
  match implemented_power_output.getLast? with
  | Option.none => Option.none
  | some x => some { b with pre_P_T := round2 x }

/-- `TestingModel.update_model`: delegates to `_update_power`. -/
def TestingModel.update_model (b : Block) (implemented_power_output : List ℚ) :
    Option Block :=
  TestingModel.update_power b implemented_power_output

/-- Evaluate `f` on every element of the list, failing as soon as one
evaluation fails (a Python loop whose body may raise). -/
def traverseOpt {α β : Type} (f : α → Option β) : List α → Option (List β)
  | [] => some []
  | a :: l =>
      match f a, traverseOpt f l with
      | some b, some bs => some (b :: bs)
      | _, _ => Option.none

/-- `TestingModel.get_implemented_profile`: the values of `P_T` at time
steps `0 .. last_implemented_time_step`, as a single-key dict. -/
def TestingModel.get_implemented_profile (b : Block)
    (last_implemented_time_step : ℕ) : Option (List (String × List ℚ)) :=
  (traverseOpt b.PTlookup (List.range (last_implemented_time_step + 1))).map
    (fun l => [("implemented_power_output", l)])

/-- `TestingModel.get_last_delivered_power`: the value of `P_T` at the last
implemented time step. -/
def TestingModel.get_last_delivered_power (b : Block)
    (last_implemented_time_step : ℕ) : Option ℚ :=
  b.PTlookup last_implemented_time_step

/-- Python dict assignment `d[k] = v`: replaces the value at the first
occurrence of the key (keys are unique in a dict), else appends the pair. -/
def dictInsert : List (String × PyVal) → String → PyVal → List (String × PyVal)
  | [], k, v => [(k, v)]
  | p :: rest, k, v =>
      if p.1 = k then (k, v) :: rest else p :: dictInsert rest k v

/-- Python dict lookup `d[k]` as an `Option`. -/
def dictGet (d : List (String × PyVal)) (k : String) : Option PyVal :=
  (d.find? (fun p => p.1 = k)).map (fun p => p.2)

/-- The body of the `for t in b.HOUR` loop of `record_results`: builds the
row for time step `t`, in insertion order — `Generator`, `Date`, `Hour`,
`Horizon [hr]`, the rounded values of `P_T[t]`, `prod_cost_approx[t]` and
`tot_cost[t]`, the rounded mileage (`|P_T[0] - pre_P_T|` at `t = 0`, else
`|P_T[t] - P_T[t-1]|`), and finally the keyword arguments. -/
def recordRow (m : TestingModel) (b : Block) (date hour : PyVal)
    (kwargs : List (String × PyVal)) (t : ℕ) : Option Row :=
  match b.PTlookup t, (b.prod_cost_approx t).bind (evalE b),
      (b.tot_cost t).bind (evalE b),
      (if t = 0
       then evalE b (PyExpr.sub (PyExpr.varPT t) PyExpr.paramPrePT)
       else evalE b (PyExpr.sub (PyExpr.varPT t) (PyExpr.varPT (t - 1)))) with
  | some pt, some pc, some tc, some dm =>
      some (kwargs.foldl (fun d p => dictInsert d p.1 p.2)
        (dictInsert (dictInsert (dictInsert (dictInsert (dictInsert
          (dictInsert (dictInsert (dictInsert []
            "Generator" (PyVal.str m.generator))
            "Date" date)
            "Hour" hour)
            "Horizon [hr]" (PyVal.int (t : ℤ)))
            "Thermal Power Generated [MW]" (PyVal.num (round2 pt)))
            "Production Cost [$]" (PyVal.num (round2 pc)))
            "Total Cost [$]" (PyVal.num (round2 tc)))
            "Mileage [MW]" (PyVal.num (round2 |dm|))))
  | _, _, _, _ => Option.none

/-- The frame built by one `record_results` call: one row per `t` in the
block's `HOUR` set, in order. -/
def recordFrame (m : TestingModel) (b : Block) (date hour : PyVal)
    (kwargs : List (String × PyVal)) : Option Frame :=
  traverseOpt (recordRow m b date hour kwargs) b.HOUR

/-- `TestingModel.record_results`: builds the frame for the current call and
appends it to `result_list`; the rest of the object's state is untouched. -/
def TestingModel.record_results (m : TestingModel) (b : Block)
    (date hour : PyVal) (kwargs : List (String × PyVal)) :
    Option TestingModel :=
  (recordFrame m b date hour kwargs).map
    (fun fr => { m with result_list := m.result_list ++ [fr] })

/-- `TestingModel.write_results`: the rows written to the CSV —
`pd.concat(self.result_list)`, i.e. all recorded frames concatenated in
order. -/
def TestingModel.write_results (m : TestingModel) : Frame :=
  m.result_list.flatten

/-- The `TestingForecaster` object: stores the constant prediction. -/
structure TestingForecaster where
  prediction : ℚ

/-- `TestingForecaster._forecast`: the dict
`{i: [prediction] * horizon for i in range(n_samples)}`. -/
def TestingForecaster.forecast (horizon n_samples : ℕ) (prediction : ℚ) :
    List (ℕ × List ℚ) :=
  (List.range n_samples).map (fun i => (i, List.replicate horizon prediction))

/-- `TestingForecaster.forecast_day_ahead_prices`: scenarios filled with the
stored prediction. -/
def TestingForecaster.forecast_day_ahead_prices (f : TestingForecaster)
    (date : PyVal) (hour : ℤ) (bus : String) (horizon n_samples : ℕ) :
    List (ℕ × List ℚ) :=
  TestingForecaster.forecast horizon n_samples f.prediction

/-- `TestingForecaster.forecast_real_time_prices`: scenarios filled with the
constant `0`. -/
def TestingForecaster.forecast_real_time_prices (f : TestingForecaster)
    (date : PyVal) (hour : ℤ) (bus : String) (horizon n_samples : ℕ) :
    List (ℕ × List ℚ) :=
  TestingForecaster.forecast horizon n_samples 0

/-- `TestingForecaster.forecast_day_ahead_and_real_time_prices`: computes
the real-time forecast, then the day-ahead forecast, and returns the pair
`(da_forecast, rt_forecast)`. -/
def TestingForecaster.forecast_day_ahead_and_real_time_prices
    (f : TestingForecaster) (date : PyVal) (hour : ℤ) (bus : String)
    (horizon n_samples : ℕ) : List (ℕ × List ℚ) × List (ℕ × List ℚ) :=
  (TestingForecaster.forecast_day_ahead_prices f date hour bus horizon n_samples,
   TestingForecaster.forecast_real_time_prices f date hour bus horizon n_samples)

/-- The fixed column order produced by `record_results` before the keyword
arguments. -/
def fixedColumns : List String :=
  ["Generator", "Date", "Hour", "Horizon [hr]",
   "Thermal Power Generated [MW]", "Production Cost [$]", "Total Cost [$]",
   "Mileage [MW]"]

/-- A block built by `populate_model` whose variable values and mutable
parameter were subsequently overwritten (by a solve / `update_model`):
"the block's current power values". -/
def solvedBlock (m : TestingModel) (horizon : ℕ) (v : ℕ → ℚ) (pre : ℚ) :
    Block :=
  setValues (m.populate_model horizon) v pre

/-- The fixed part of the row `record_results` produces at time step `t` of
a solved block with values `v` and previous power `pre`. -/
def baseRow (m : TestingModel) (date hour : PyVal) (v : ℕ → ℚ) (pre : ℚ)
    (t : ℕ) : Row :=
  [("Generator", PyVal.str m.generator),
   ("Date", date),
   ("Hour", hour),
   ("Horizon [hr]", PyVal.int (t : ℤ)),
   ("Thermal Power Generated [MW]", PyVal.num (round2 (v t))),
   ("Production Cost [$]", PyVal.num (round2 (v t * m.marginal_cost))),
   ("Total Cost [$]", PyVal.num (round2 (v t * m.marginal_cost))),
   ("Mileage [MW]",
    PyVal.num (round2 |if t = 0 then v 0 - pre else v t - v (t - 1)|))]

/-- The row `record_results` produces at time step `t` of a solved block
with values `v` and previous power `pre`: the fixed part followed by the
keyword arguments inserted in order. -/
def solvedRow (m : TestingModel) (date hour : PyVal)
    (kwargs : List (String × PyVal)) (v : ℕ → ℚ) (pre : ℚ) (t : ℕ) : Row :=
  kwargs.foldl (fun d p => dictInsert d p.1 p.2) (baseRow m date hour v pre t)

@[simp]
theorem solvedBlock_HOUR (m : TestingModel) (horizon : ℕ) (v : ℕ → ℚ)
    (pre : ℚ) : (solvedBlock m horizon v pre).HOUR = List.range horizon := rfl

@[simp]
theorem solvedBlock_P_T (m : TestingModel) (horizon : ℕ) (v : ℕ → ℚ)
    (pre : ℚ) : (solvedBlock m horizon v pre).P_T = v := rfl

@[simp]
theorem solvedBlock_marginal_cost (m : TestingModel) (horizon : ℕ)
    (v : ℕ → ℚ) (pre : ℚ) :
    (solvedBlock m horizon v pre).marginal_cost = m.marginal_cost := rfl

@[simp]
theorem solvedBlock_pre_P_T (m : TestingModel) (horizon : ℕ) (v : ℕ → ℚ)
    (pre : ℚ) : (solvedBlock m horizon v pre).pre_P_T = pre := rfl

theorem solvedBlock_prod_cost (m : TestingModel) (horizon : ℕ) (v : ℕ → ℚ)
    (pre : ℚ) (h : ℕ) :
    (solvedBlock m horizon v pre).prod_cost_approx h =
      if h ∈ List.range horizon
      then some (PyExpr.mul (PyExpr.varPT h) PyExpr.paramMC)
      else Option.none := rfl

theorem solvedBlock_tot_cost (m : TestingModel) (horizon : ℕ) (v : ℕ → ℚ)
    (pre : ℚ) (h : ℕ) :
    (solvedBlock m horizon v pre).tot_cost h =
      if h ∈ List.range horizon
      then some (PyExpr.mul (PyExpr.varPT h) PyExpr.paramMC)
      else Option.none := rfl

@[simp]
theorem solvedBlock_PTlookup (m : TestingModel) (horizon : ℕ) (v : ℕ → ℚ)
    (pre : ℚ) (t : ℕ) :
    (solvedBlock m horizon v pre).PTlookup t =
      if t < horizon then some (v t) else Option.none := by
  simp [solvedBlock, setValues, TestingModel.populate_model, Block.PTlookup,
    List.mem_range]

theorem traverseOpt_eq_map {α β : Type} (f : α → Option β) (g : α → β) :
    ∀ l : List α, (∀ a ∈ l, f a = some (g a)) →
      traverseOpt f l = some (l.map g)
  | [], _ => rfl
  | a :: l, h => by
      have ha := h a (List.mem_cons_self a l)
      have hl := traverseOpt_eq_map f g l
        (fun x hx => h x (List.mem_cons_of_mem a hx))
      simp [traverseOpt, ha, hl]

theorem recordRow_solvedBlock (m : TestingModel) (horizon : ℕ) (v : ℕ → ℚ)
    (pre : ℚ) (date hour : PyVal) (kwargs : List (String × PyVal)) (t : ℕ)
    (ht : t < horizon) :
    recordRow m (solvedBlock m horizon v pre) date hour kwargs t =
      some (solvedRow m date hour kwargs v pre t) := by
  have hmem : t ∈ List.range horizon := List.mem_range.mpr ht
  have hP : ∀ s, s < horizon →
      (solvedBlock m horizon v pre).PTlookup s = some (v s) := by
    intro s hs
    rw [solvedBlock_PTlookup]
    exact if_pos hs
  have h1 := hP t ht
  have h2 : ((solvedBlock m horizon v pre).prod_cost_approx t).bind
      (evalE (solvedBlock m horizon v pre)) = some (v t * m.marginal_cost) := by
    rw [solvedBlock_prod_cost, if_pos hmem]
    show evalE (solvedBlock m horizon v pre)
      (PyExpr.mul (PyExpr.varPT t) PyExpr.paramMC) = _
    simp [evalE, h1]
  have h3 : ((solvedBlock m horizon v pre).tot_cost t).bind
      (evalE (solvedBlock m horizon v pre)) = some (v t * m.marginal_cost) := by
    rw [solvedBlock_tot_cost, if_pos hmem]
    show evalE (solvedBlock m horizon v pre)
      (PyExpr.mul (PyExpr.varPT t) PyExpr.paramMC) = _
    simp [evalE, h1]
  have h4 : (if t = 0
      then evalE (solvedBlock m horizon v pre)
        (PyExpr.sub (PyExpr.varPT t) PyExpr.paramPrePT)
      else evalE (solvedBlock m horizon v pre)
        (PyExpr.sub (PyExpr.varPT t) (PyExpr.varPT (t - 1)))) =
      some (if t = 0 then v 0 - pre else v t - v (t - 1)) := by
    by_cases ht0 : t = 0
    · subst ht0
      simp [evalE, h1]
    · have ht1 : t - 1 < horizon := lt_of_le_of_lt (Nat.sub_le t 1) ht
      simp [evalE, ht0, h1, hP _ ht1]
  simp only [recordRow, h1, h2, h3, h4]
  rfl

theorem recordFrame_solvedBlock (m : TestingModel) (horizon : ℕ)
    (v : ℕ → ℚ) (pre : ℚ) (date hour : PyVal)
    (kwargs : List (String × PyVal)) :
    recordFrame m (solvedBlock m horizon v pre) date hour kwargs =
      some ((List.range horizon).map (solvedRow m date hour kwargs v pre)) := by
  unfold recordFrame
  rw [solvedBlock_HOUR]
  exact traverseOpt_eq_map _ _ _
    (fun t htm => recordRow_solvedBlock m horizon v pre date hour kwargs t
      (List.mem_range.mp htm))

theorem dictGet_dictInsert_ne (k k' : String) (w : PyVal) (h : k' ≠ k)
    (d : List (String × PyVal)) :
    dictGet (dictInsert d k' w) k = dictGet d k := by
  induction d with
  | nil => simp [dictInsert, dictGet, List.find?, decide_eq_false h]
  | cons p rest ih =>
      by_cases hpk : p.1 = k
      · have hp : ¬p.1 = k' := by
          rw [hpk]
          exact fun e => h e.symm
        simp only [dictInsert, if_neg hp]
        simp [dictGet, List.find?, hpk]
      · by_cases hp : p.1 = k'
        · simp only [dictInsert, if_pos hp]
          simp [dictGet, List.find?, decide_eq_false h, decide_eq_false hpk]
        · simp only [dictInsert, if_neg hp]
          simp only [dictGet, List.find?] at ih ⊢
          rw [decide_eq_false hpk]
          exact ih

theorem keys_dictInsert_not_mem (k : String) (w : PyVal)
    (d : List (String × PyVal)) (h : k ∉ d.map Prod.fst) :
    (dictInsert d k w).map Prod.fst = d.map Prod.fst ++ [k] := by
  induction d with
  | nil => rfl
  | cons p rest ih =>
      have hp : p.1 ≠ k := by
        intro e
        exact h (by simp [e])
      simp only [dictInsert, if_neg hp, List.map_cons]
      rw [ih (fun hm => h (by simp [hm]))]
      simp

theorem dictGet_foldl_of_ne (k : String) :
    ∀ (kwargs : List (String × PyVal)) (d : List (String × PyVal)),
      (∀ p ∈ kwargs, p.1 ≠ k) →
      dictGet (kwargs.foldl (fun d p => dictInsert d p.1 p.2) d) k = dictGet d k
  | [], _, _ => rfl
  | q :: rest, d, h => by
      rw [List.foldl_cons,
        dictGet_foldl_of_ne k rest (dictInsert d q.1 q.2)
          (fun p hp => h p (List.mem_cons_of_mem q hp)),
        dictGet_dictInsert_ne k q.1 q.2 (h q (List.mem_cons_self q rest)) d]

theorem keys_foldl_append :
    ∀ (kwargs : List (String × PyVal)) (d : List (String × PyVal)),
      (kwargs.map Prod.fst).Nodup →
      (∀ p ∈ kwargs, p.1 ∉ d.map Prod.fst) →
      (kwargs.foldl (fun d p => dictInsert d p.1 p.2) d).map Prod.fst =
        d.map Prod.fst ++ kwargs.map Prod.fst
  | [], d, _, _ => by simp
  | q :: rest, d, hnd, hdisj => by
      have hq : q.1 ∉ d.map Prod.fst := hdisj q (List.mem_cons_self q rest)
      have hnd0 : q.1 ∉ rest.map Prod.fst ∧ (rest.map Prod.fst).Nodup := by
        rw [List.map_cons] at hnd
        exact List.nodup_cons.mp hnd
      have hdisj' : ∀ p ∈ rest, p.1 ∉ (dictInsert d q.1 q.2).map Prod.fst := by
        intro p hp
        rw [keys_dictInsert_not_mem q.1 q.2 d hq]
        intro hmem
        rcases List.mem_append.mp hmem with hmem | hmem
        · exact hdisj p (List.mem_cons_of_mem q hp) hmem
        · have hpq : p.1 = q.1 := by simpa using hmem
          exact hnd0.1 (hpq ▸ List.mem_map_of_mem Prod.fst hp)
      rw [List.foldl_cons,
        keys_foldl_append rest (dictInsert d q.1 q.2) hnd0.2 hdisj',
        keys_dictInsert_not_mem q.1 q.2 d hq]
      simp

/-- A concrete valid thermal-generator descriptor (shaped like the
`testing_generator_params` fixture). -/
def dEx : ThermalGeneratorModelData :=
  { gen_name := "10_STEAM"
    p_min := 30
    p_max := 76
    p_cost := [(30, 30), (76, 30)]
    p_cost_ne := by simp }

/-- The `TestingModel` object built from `dEx`. -/
def mEx : TestingModel :=
  { model_data := dEx
    generator := "10_STEAM"
    result_list := []
    pmin := 30
    pmax := 76
    marginal_cost := 30 }

theorem mEx_init : TestingModel.init (PyData.thermal dEx) = Except.ok mEx :=
  rfl

/-- C2: constructing `TestingModel` raises a `TypeError` if and only if the
model data is not an instance of `ThermalGeneratorModelData` (the two
constructors of `PyData` exhaust the cases): on every instance construction
succeeds with the fields set from the model data, and on any non-instance it
fails with the type-mismatch error. -/
theorem C2_init_type_check (d : ThermalGeneratorModelData) :
    TestingModel.init (PyData.thermal d) =
      Except.ok
        { model_data := d
          generator := d.gen_name
          result_list := []
          pmin := d.p_min
          pmax := d.p_max
          marginal_cost := (d.p_cost.head d.p_cost_ne).2 } ∧
    TestingModel.init PyData.notThermal =
      Except.error (PyError.typeError
        "model_data must be an instance of ThermalGeneratorModelData.") :=
  ⟨rfl, rfl⟩

/-- C7: for every horizon, `populate_model` builds a block whose `HOUR` set
is exactly `0 .. horizon-1`, whose variable `P_T` is defined at exactly
those steps and initialized to `p_min` with bounds `[p_min, p_max]`, and
whose parameter `pre_P_T` is initialized to `p_min`. -/
theorem C7_populate_model (m : TestingModel) (horizon : ℕ) :
    (m.populate_model horizon).HOUR = List.range horizon ∧
    Block.PTlookup (m.populate_model horizon) =
      (fun t => if t < horizon then some m.pmin else Option.none) ∧
    (m.populate_model horizon).P_T_lb = m.pmin ∧
    (m.populate_model horizon).P_T_ub = m.pmax ∧
    (m.populate_model horizon).pre_P_T = m.pmin := by
  refine ⟨rfl, ?_, rfl, rfl, rfl⟩
  funext t
  simp [TestingModel.populate_model, Block.PTlookup, List.mem_range]

/-- C5: on a populated block with current values `v`, for every hour `h` in
`HOUR` the expression `prod_cost_approx[h]` evaluates to
`P_T[h] * marginal_cost`, and `tot_cost[h]` is the very expression
`prod_cost_approx[h]`. -/
theorem C5_cost_expressions (m : TestingModel) (horizon : ℕ) (v : ℕ → ℚ)
    (pre : ℚ) (h : ℕ) (hh : h < horizon) :
    ((solvedBlock m horizon v pre).prod_cost_approx h).bind
        (evalE (solvedBlock m horizon v pre)) =
      some (v h * m.marginal_cost) ∧
    (solvedBlock m horizon v pre).tot_cost h =
      (solvedBlock m horizon v pre).prod_cost_approx h := by
  have hmem : h ∈ List.range horizon := List.mem_range.mpr hh
  have h1 : (solvedBlock m horizon v pre).PTlookup h = some (v h) := by
    rw [solvedBlock_PTlookup]
    exact if_pos hh
  constructor
  · rw [solvedBlock_prod_cost, if_pos hmem]
    show evalE (solvedBlock m horizon v pre)
      (PyExpr.mul (PyExpr.varPT h) PyExpr.paramMC) = _
    simp [evalE, h1]
  · rfl

/-- C5 witness: at horizon 2 and hour 1 with current power 31, the
production cost expression evaluates to `31 * marginal_cost` and the total
cost is the same expression. -/
theorem C5_cost_expressions_witness :
    ((solvedBlock mEx 2 (fun _ => (31:ℚ)) 30).prod_cost_approx 1).bind
        (evalE (solvedBlock mEx 2 (fun _ => (31:ℚ)) 30)) =
      some ((31:ℚ) * mEx.marginal_cost) ∧
    (solvedBlock mEx 2 (fun _ => (31:ℚ)) 30).tot_cost 1 =
      (solvedBlock mEx 2 (fun _ => (31:ℚ)) 30).prod_cost_approx 1 :=
  C5_cost_expressions mEx 2 (fun _ => (31:ℚ)) 30 1 (by decide)

/-- C3 counterexample: with stored prediction 30, the real-time forecast at
horizon 1 with one sample is `{0: [0]}` — its elements are the constant 0,
not the forecaster's prediction 30. -/
theorem C3_counterexample :
    TestingForecaster.forecast_real_time_prices ⟨30⟩ PyVal.none 0 "bus5" 1 1 =
      [(0, [(0:ℚ)])] ∧
    (TestingForecaster.mk 30).prediction = 30 ∧
    (0:ℚ) ≠ 30 := by
  refine ⟨rfl, rfl, by norm_num⟩

/-- C3 (amended): for every date, hour, bus, horizon and `n_samples`, each
forecast method returns exactly `n_samples` scenario entries keyed
`0 .. n_samples-1`, each a list of length `horizon`;
`forecast_day_ahead_prices` fills them with the stored prediction, while
`forecast_real_time_prices` fills them with the constant 0. -/
theorem C3_forecast_shape (f : TestingForecaster) (date : PyVal) (hour : ℤ)
    (bus : String) (horizon n_samples : ℕ) :
    (f.forecast_day_ahead_prices date hour bus horizon n_samples).map
        Prod.fst = List.range n_samples ∧
    (f.forecast_day_ahead_prices date hour bus horizon n_samples).map
        Prod.snd =
      List.replicate n_samples (List.replicate horizon f.prediction) ∧
    (f.forecast_real_time_prices date hour bus horizon n_samples).map
        Prod.fst = List.range n_samples ∧
    (f.forecast_real_time_prices date hour bus horizon n_samples).map
        Prod.snd = List.replicate n_samples (List.replicate horizon (0:ℚ)) ∧
    (f.forecast_day_ahead_prices date hour bus horizon n_samples).length =
      n_samples := by
  unfold TestingForecaster.forecast_day_ahead_prices
    TestingForecaster.forecast_real_time_prices TestingForecaster.forecast
  refine ⟨?_, ?_, ?_, ?_, ?_⟩ <;>
    simp [List.map_map, Function.comp_def, List.map_const']

/-- C10: `forecast_real_time_prices` returns scenarios filled with the
constant 0, independent of the stored prediction, and
`forecast_day_ahead_and_real_time_prices` returns exactly the pair
(day-ahead result, real-time result) in that order. -/
theorem C10_real_time_zero (f g : TestingForecaster) (date : PyVal)
    (hour : ℤ) (bus : String) (horizon n_samples : ℕ) :
    f.forecast_real_time_prices date hour bus horizon n_samples =
      g.forecast_real_time_prices date hour bus horizon n_samples ∧
    (f.forecast_real_time_prices date hour bus horizon n_samples).map
        Prod.snd = List.replicate n_samples (List.replicate horizon (0:ℚ)) ∧
    f.forecast_day_ahead_and_real_time_prices date hour bus horizon
        n_samples =
      (f.forecast_day_ahead_prices date hour bus horizon n_samples,
       f.forecast_real_time_prices date hour bus horizon n_samples) := by
  refine ⟨rfl, ?_, rfl⟩
  unfold TestingForecaster.forecast_real_time_prices
    TestingForecaster.forecast
  simp [List.map_map, Function.comp_def, List.map_const']

/-- C1 counterexample: on a populated one-hour block with current power
`P_T[0] = 30.001` and `pre_P_T = 30`, the recorded 'Mileage [MW]' value is
`0` (the code rounds to 2 decimal places) while `|P_T[0] - pre_P_T|` is
`0.001`, so the claim's unrounded equality fails. -/
theorem C1_counterexample :
    recordFrame mEx (solvedBlock mEx 1 (fun _ => (30001:ℚ)/1000) 30)
        PyVal.none PyVal.none [] =
      some [solvedRow mEx PyVal.none PyVal.none []
        (fun _ => (30001:ℚ)/1000) 30 0] ∧
    dictGet (solvedRow mEx PyVal.none PyVal.none []
        (fun _ => (30001:ℚ)/1000) 30 0) "Mileage [MW]" =
      some (PyVal.num 0) ∧
    |(solvedBlock mEx 1 (fun _ => (30001:ℚ)/1000) 30).P_T 0 -
        (solvedBlock mEx 1 (fun _ => (30001:ℚ)/1000) 30).pre_P_T| =
      1/1000 ∧
    PyVal.num 0 ≠ PyVal.num (1/1000) := by
  refine ⟨?_, ?_, ?_, ?_⟩
  · rw [recordFrame_solvedBlock, show List.range 1 = [0] from rfl]
    rfl
  · show some (PyVal.num (round2 |(30001:ℚ)/1000 - 30|)) = some (PyVal.num 0)
    rw [show |(30001:ℚ)/1000 - 30| = 1/1000 by norm_num]
    norm_num [round2, round_eq]
  · show |(30001:ℚ)/1000 - 30| = 1/1000
    norm_num
  · intro hcon
    rw [PyVal.num.injEq] at hcon
    norm_num at hcon

/-- C1 (amended): the 'Mileage [MW]' value recorded for horizon index `t`
equals `|P_T[0] - pre_P_T|` rounded to 2 decimal places when `t = 0`, and
`|P_T[t] - P_T[t-1]|` rounded to 2 decimal places when `t > 0`. -/
theorem C1_mileage_rounded (m : TestingModel) (horizon : ℕ) (v : ℕ → ℚ)
    (pre : ℚ) (date hour : PyVal) (kwargs : List (String × PyVal)) (t : ℕ)
    (ht : t < horizon) (hk : ∀ p ∈ kwargs, p.1 ≠ "Mileage [MW]") :
    recordFrame m (solvedBlock m horizon v pre) date hour kwargs =
      some ((List.range horizon).map (solvedRow m date hour kwargs v pre)) ∧
    ((List.range horizon).map (solvedRow m date hour kwargs v pre))[t]? =
      some (solvedRow m date hour kwargs v pre t) ∧
    dictGet (solvedRow m date hour kwargs v pre t) "Mileage [MW]" =
      some (PyVal.num (if t = 0 then round2 |v 0 - pre|
        else round2 |v t - v (t - 1)|)) := by
  refine ⟨recordFrame_solvedBlock m horizon v pre date hour kwargs, ?_, ?_⟩
  · rw [List.getElem?_map, List.getElem?_range ht]
    rfl
  · unfold solvedRow
    rw [dictGet_foldl_of_ne "Mileage [MW]" kwargs _ hk]
    show some (PyVal.num (round2 |if t = 0 then v 0 - pre
      else v t - v (t - 1)|)) = _
    by_cases ht0 : t = 0 <;> simp [ht0]

/-- C1 witness: the amended mileage property instantiated on a one-hour
block with constant power 30. -/
theorem C1_mileage_rounded_witness :
    recordFrame mEx (solvedBlock mEx 1 (fun _ => (30:ℚ)) 30)
        PyVal.none PyVal.none [] =
      some ((List.range 1).map
        (solvedRow mEx PyVal.none PyVal.none [] (fun _ => (30:ℚ)) 30)) ∧
    ((List.range 1).map
        (solvedRow mEx PyVal.none PyVal.none [] (fun _ => (30:ℚ)) 30))[0]? =
      some (solvedRow mEx PyVal.none PyVal.none [] (fun _ => (30:ℚ)) 30 0) ∧
    dictGet (solvedRow mEx PyVal.none PyVal.none [] (fun _ => (30:ℚ)) 30 0)
        "Mileage [MW]" =
      some (PyVal.num (if (0:ℕ) = 0 then round2 |(30:ℚ) - 30|
        else round2 |(30:ℚ) - 30|)) :=
  C1_mileage_rounded mEx 1 (fun _ => (30:ℚ)) 30 PyVal.none PyVal.none [] 0
    (by norm_num) (by simp)

/-- C4: each frame produced by `record_results` on a populated block has
exactly one row per time step in `HOUR`, every row's columns are the eight
fixed columns in order followed by the extra keyword fields, and
`write_results` writes the concatenation of the recorded frames. -/
theorem C4_row_columns (m : TestingModel) (horizon : ℕ) (v : ℕ → ℚ)
    (pre : ℚ) (date hour : PyVal) (kwargs : List (String × PyVal))
    (hnd : (kwargs.map Prod.fst).Nodup)
    (hdisj : ∀ p ∈ kwargs, p.1 ∉ fixedColumns) :
    recordFrame m (solvedBlock m horizon v pre) date hour kwargs =
      some ((List.range horizon).map (solvedRow m date hour kwargs v pre)) ∧
    ((List.range horizon).map (solvedRow m date hour kwargs v pre)).length =
      horizon ∧
    ((List.range horizon).map (solvedRow m date hour kwargs v pre)).map
        (fun r => r.map Prod.fst) =
      List.replicate horizon (fixedColumns ++ kwargs.map Prod.fst) ∧
    TestingModel.record_results m (solvedBlock m horizon v pre) date hour
        kwargs =
      some { m with result_list := m.result_list ++
        [(List.range horizon).map (solvedRow m date hour kwargs v pre)] } ∧
    TestingModel.write_results { m with result_list := m.result_list ++
        [(List.range horizon).map (solvedRow m date hour kwargs v pre)] } =
      m.write_results ++
        (List.range horizon).map (solvedRow m date hour kwargs v pre) := by
  have hkeys : ∀ t : ℕ, (solvedRow m date hour kwargs v pre t).map Prod.fst =
      fixedColumns ++ kwargs.map Prod.fst := by
    intro t
    have hbk : (baseRow m date hour v pre t).map Prod.fst = fixedColumns := rfl
    unfold solvedRow
    rw [keys_foldl_append kwargs (baseRow m date hour v pre t) hnd
      (fun p hp hmem => hdisj p hp (hbk ▸ hmem)), hbk]
  refine ⟨recordFrame_solvedBlock m horizon v pre date hour kwargs,
    by simp, ?_, ?_, ?_⟩
  · rw [List.map_map]
    rw [show ((fun r : Row => r.map Prod.fst) ∘
        solvedRow m date hour kwargs v pre) =
        (fun _ : ℕ => fixedColumns ++ kwargs.map Prod.fst) from
      funext fun t => hkeys t]
    rw [List.map_const', List.length_range]
  · unfold TestingModel.record_results
    rw [recordFrame_solvedBlock]
    rfl
  · unfold TestingModel.write_results
    simp

/-- C4 witness: the column property instantiated on a one-hour block with
one extra keyword column. -/
theorem C4_row_columns_witness :
    recordFrame mEx (solvedBlock mEx 1 (fun _ => (30:ℚ)) 30)
        PyVal.none PyVal.none [("extra", PyVal.int 7)] =
      some ((List.range 1).map (solvedRow mEx PyVal.none PyVal.none
        [("extra", PyVal.int 7)] (fun _ => (30:ℚ)) 30)) ∧
    ((List.range 1).map (solvedRow mEx PyVal.none PyVal.none
        [("extra", PyVal.int 7)] (fun _ => (30:ℚ)) 30)).length = 1 ∧
    ((List.range 1).map (solvedRow mEx PyVal.none PyVal.none
        [("extra", PyVal.int 7)] (fun _ => (30:ℚ)) 30)).map
        (fun r => r.map Prod.fst) =
      List.replicate 1 (fixedColumns ++
        [("extra", PyVal.int 7)].map Prod.fst) ∧
    TestingModel.record_results mEx (solvedBlock mEx 1 (fun _ => (30:ℚ)) 30)
        PyVal.none PyVal.none [("extra", PyVal.int 7)] =
      some { mEx with result_list := mEx.result_list ++
        [(List.range 1).map (solvedRow mEx PyVal.none PyVal.none
          [("extra", PyVal.int 7)] (fun _ => (30:ℚ)) 30)] } ∧
    TestingModel.write_results { mEx with result_list := mEx.result_list ++
        [(List.range 1).map (solvedRow mEx PyVal.none PyVal.none
          [("extra", PyVal.int 7)] (fun _ => (30:ℚ)) 30)] } =
      mEx.write_results ++ (List.range 1).map (solvedRow mEx PyVal.none
        PyVal.none [("extra", PyVal.int 7)] (fun _ => (30:ℚ)) 30) :=
  C4_row_columns mEx 1 (fun _ => (30:ℚ)) 30 PyVal.none PyVal.none
    [("extra", PyVal.int 7)] (by simp) (by decide)

/-- C6: `record_results` only appends the frame of the current call as one
new entry of `result_list`; `model_data`, `generator`, `pmin`, `pmax` and
`marginal_cost` are untouched (the other methods are pure functions of the
block and do not touch the object's state at all). -/
theorem C6_record_results_frame (m : TestingModel) (b : Block)
    (date hour : PyVal) (kwargs : List (String × PyVal)) (fr : Frame)
    (h : recordFrame m b date hour kwargs = some fr) :
    TestingModel.record_results m b date hour kwargs =
      some { m with result_list := m.result_list ++ [fr] } ∧
    ({ m with result_list := m.result_list ++ [fr] } :
      TestingModel).model_data = m.model_data ∧
    ({ m with result_list := m.result_list ++ [fr] } :
      TestingModel).generator = m.generator ∧
    ({ m with result_list := m.result_list ++ [fr] } :
      TestingModel).pmin = m.pmin ∧
    ({ m with result_list := m.result_list ++ [fr] } :
      TestingModel).pmax = m.pmax ∧
    ({ m with result_list := m.result_list ++ [fr] } :
      TestingModel).marginal_cost = m.marginal_cost ∧
    ({ m with result_list := m.result_list ++ [fr] } :
      TestingModel).result_list = m.result_list ++ [fr] := by
  refine ⟨?_, rfl, rfl, rfl, rfl, rfl, rfl⟩
  unfold TestingModel.record_results
  rw [h]
  rfl

/-- C6 witness: recording one frame on a populated one-hour block appends
exactly that frame and changes no other field. -/
theorem C6_record_results_frame_witness :
    TestingModel.record_results mEx (solvedBlock mEx 1 (fun _ => (30:ℚ)) 30)
        PyVal.none PyVal.none [] =
      some { mEx with result_list := mEx.result_list ++
        [(List.range 1).map
          (solvedRow mEx PyVal.none PyVal.none [] (fun _ => (30:ℚ)) 30)] } ∧
    ({ mEx with result_list := mEx.result_list ++
        [(List.range 1).map (solvedRow mEx PyVal.none PyVal.none []
          (fun _ => (30:ℚ)) 30)] } : TestingModel).model_data =
      mEx.model_data ∧
    ({ mEx with result_list := mEx.result_list ++
        [(List.range 1).map (solvedRow mEx PyVal.none PyVal.none []
          (fun _ => (30:ℚ)) 30)] } : TestingModel).generator =
      mEx.generator ∧
    ({ mEx with result_list := mEx.result_list ++
        [(List.range 1).map (solvedRow mEx PyVal.none PyVal.none []
          (fun _ => (30:ℚ)) 30)] } : TestingModel).pmin = mEx.pmin ∧
    ({ mEx with result_list := mEx.result_list ++
        [(List.range 1).map (solvedRow mEx PyVal.none PyVal.none []
          (fun _ => (30:ℚ)) 30)] } : TestingModel).pmax = mEx.pmax ∧
    ({ mEx with result_list := mEx.result_list ++
        [(List.range 1).map (solvedRow mEx PyVal.none PyVal.none []
          (fun _ => (30:ℚ)) 30)] } : TestingModel).marginal_cost =
      mEx.marginal_cost ∧
    ({ mEx with result_list := mEx.result_list ++
        [(List.range 1).map (solvedRow mEx PyVal.none PyVal.none []
          (fun _ => (30:ℚ)) 30)] } : TestingModel).result_list =
      mEx.result_list ++
        [(List.range 1).map
          (solvedRow mEx PyVal.none PyVal.none [] (fun _ => (30:ℚ)) 30)] :=
  C6_record_results_frame mEx (solvedBlock mEx 1 (fun _ => (30:ℚ)) 30)
    PyVal.none PyVal.none []
    ((List.range 1).map
      (solvedRow mEx PyVal.none PyVal.none [] (fun _ => (30:ℚ)) 30))
    (recordFrame_solvedBlock mEx 1 (fun _ => (30:ℚ)) 30 PyVal.none
      PyVal.none [])

/-- C8: `update_model` sets the block's `pre_P_T` to the last implemented
power output rounded to 2 decimal places and changes no other component;
on an empty list it fails (an `IndexError` in Python). -/
theorem C8_update_model_effect (b : Block) (l : List ℚ) (x : ℚ)
    (h : l.getLast? = some x) :
    TestingModel.update_model b l = some { b with pre_P_T := round2 x } ∧
    ({ b with pre_P_T := round2 x } : Block).HOUR = b.HOUR ∧
    ({ b with pre_P_T := round2 x } : Block).marginal_cost =
      b.marginal_cost ∧
    ({ b with pre_P_T := round2 x } : Block).Pmax = b.Pmax ∧
    ({ b with pre_P_T := round2 x } : Block).Pmin = b.Pmin ∧
    ({ b with pre_P_T := round2 x } : Block).P_T = b.P_T ∧
    ({ b with pre_P_T := round2 x } : Block).P_T_lb = b.P_T_lb ∧
    ({ b with pre_P_T := round2 x } : Block).P_T_ub = b.P_T_ub ∧
    ({ b with pre_P_T := round2 x } : Block).prod_cost_approx =
      b.prod_cost_approx ∧
    ({ b with pre_P_T := round2 x } : Block).tot_cost = b.tot_cost ∧
    ({ b with pre_P_T := round2 x } : Block).pre_P_T = round2 x ∧
    TestingModel.update_model b [] = Option.none := by
  refine ⟨?_, rfl, rfl, rfl, rfl, rfl, rfl, rfl, rfl, rfl, rfl, rfl⟩
  unfold TestingModel.update_model TestingModel.update_power
  rw [h]

/-- C8 witness: updating a populated block with implemented outputs
`[31, 45.7]` sets `pre_P_T` to `round(45.7, 2)` and nothing else. -/
theorem C8_update_model_effect_witness :
    TestingModel.update_model (solvedBlock mEx 2 (fun _ => (30:ℚ)) 30)
        [(31:ℚ), 457/10] =
      some { solvedBlock mEx 2 (fun _ => (30:ℚ)) 30 with
        pre_P_T := round2 ((457:ℚ)/10) } ∧
    ({ solvedBlock mEx 2 (fun _ => (30:ℚ)) 30 with
        pre_P_T := round2 ((457:ℚ)/10) } : Block).HOUR =
      (solvedBlock mEx 2 (fun _ => (30:ℚ)) 30).HOUR ∧
    ({ solvedBlock mEx 2 (fun _ => (30:ℚ)) 30 with
        pre_P_T := round2 ((457:ℚ)/10) } : Block).marginal_cost =
      (solvedBlock mEx 2 (fun _ => (30:ℚ)) 30).marginal_cost ∧
    ({ solvedBlock mEx 2 (fun _ => (30:ℚ)) 30 with
        pre_P_T := round2 ((457:ℚ)/10) } : Block).Pmax =
      (solvedBlock mEx 2 (fun _ => (30:ℚ)) 30).Pmax ∧
    ({ solvedBlock mEx 2 (fun _ => (30:ℚ)) 30 with
        pre_P_T := round2 ((457:ℚ)/10) } : Block).Pmin =
      (solvedBlock mEx 2 (fun _ => (30:ℚ)) 30).Pmin ∧
    ({ solvedBlock mEx 2 (fun _ => (30:ℚ)) 30 with
        pre_P_T := round2 ((457:ℚ)/10) } : Block).P_T =
      (solvedBlock mEx 2 (fun _ => (30:ℚ)) 30).P_T ∧
    ({ solvedBlock mEx 2 (fun _ => (30:ℚ)) 30 with
        pre_P_T := round2 ((457:ℚ)/10) } : Block).P_T_lb =
      (solvedBlock mEx 2 (fun _ => (30:ℚ)) 30).P_T_lb ∧
    ({ solvedBlock mEx 2 (fun _ => (30:ℚ)) 30 with
        pre_P_T := round2 ((457:ℚ)/10) } : Block).P_T_ub =
      (solvedBlock mEx 2 (fun _ => (30:ℚ)) 30).P_T_ub ∧
    ({ solvedBlock mEx 2 (fun _ => (30:ℚ)) 30 with
        pre_P_T := round2 ((457:ℚ)/10) } : Block).prod_cost_approx =
      (solvedBlock mEx 2 (fun _ => (30:ℚ)) 30).prod_cost_approx ∧
    ({ solvedBlock mEx 2 (fun _ => (30:ℚ)) 30 with
        pre_P_T := round2 ((457:ℚ)/10) } : Block).tot_cost =
      (solvedBlock mEx 2 (fun _ => (30:ℚ)) 30).tot_cost ∧
    ({ solvedBlock mEx 2 (fun _ => (30:ℚ)) 30 with
        pre_P_T := round2 ((457:ℚ)/10) } : Block).pre_P_T =
      round2 ((457:ℚ)/10) ∧
    TestingModel.update_model (solvedBlock mEx 2 (fun _ => (30:ℚ)) 30) [] =
      Option.none :=
  C8_update_model_effect (solvedBlock mEx 2 (fun _ => (30:ℚ)) 30)
    [(31:ℚ), 457/10] ((457:ℚ)/10) rfl

/-- C9: `get_implemented_profile` returns the single-key mapping
`implemented_power_output` holding the `P_T` values at steps `0 .. k`
(length `k + 1`), and `get_last_delivered_power` is the last element of
that sequence. -/
theorem C9_implemented_profile (b : Block) (k : ℕ)
    (hdef : ∀ t, t ≤ k → t ∈ b.HOUR) :
    TestingModel.get_implemented_profile b k =
      some [("implemented_power_output", (List.range (k + 1)).map b.P_T)] ∧
    ((List.range (k + 1)).map b.P_T).length = k + 1 ∧
    TestingModel.get_last_delivered_power b k = some (b.P_T k) ∧
    ((List.range (k + 1)).map b.P_T).getLast? = some (b.P_T k) := by
  refine ⟨?_, by simp, ?_, ?_⟩
  · unfold TestingModel.get_implemented_profile
    rw [traverseOpt_eq_map b.PTlookup b.P_T _ (fun t htm => by
      have hle : t ≤ k := Nat.lt_succ_iff.mp (List.mem_range.mp htm)
      simp [Block.PTlookup, hdef t hle])]
    rfl
  · unfold TestingModel.get_last_delivered_power
    simp [Block.PTlookup, hdef k le_rfl]
  · rw [List.range_succ, List.map_append]
    simp

/-- C9 witness: the profile property instantiated on a populated two-hour
block at last implemented time step 1. -/
theorem C9_implemented_profile_witness :
    TestingModel.get_implemented_profile
        (solvedBlock mEx 2 (fun _ => (30:ℚ)) 30) 1 =
      some [("implemented_power_output",
        (List.range 2).map (solvedBlock mEx 2 (fun _ => (30:ℚ)) 30).P_T)] ∧
    ((List.range 2).map (solvedBlock mEx 2 (fun _ => (30:ℚ)) 30).P_T).length
      = 2 ∧
    TestingModel.get_last_delivered_power
        (solvedBlock mEx 2 (fun _ => (30:ℚ)) 30) 1 =
      some ((solvedBlock mEx 2 (fun _ => (30:ℚ)) 30).P_T 1) ∧
    ((List.range 2).map
        (solvedBlock mEx 2 (fun _ => (30:ℚ)) 30).P_T).getLast? =
      some ((solvedBlock mEx 2 (fun _ => (30:ℚ)) 30).P_T 1) :=
  C9_implemented_profile (solvedBlock mEx 2 (fun _ => (30:ℚ)) 30) 1
    (fun t ht => List.mem_range.mpr (lt_of_le_of_lt ht (by norm_num)))

end GridIntegrationTest
